import Mathlib

/-!
Shallow embedding of the node-tree-sitter binding layer
(`src/document.cc` and `src/ast_node.cc`) and verification of its
specification.

Modelling conventions:
* JavaScript values visible to the binding are modelled by `JSValue`.
* `v8::Value::Int32Value()` is modelled by `toInt32` (truncation to a
  signed 32-bit integer); conversion of a C `int` to `size_t` is modelled
  by `toSizeT` (wrap modulo 2^64).
* A NAN method either sets a pending exception (`Except.error msg`, where
  `msg` is the exact message passed to `Nan::ThrowTypeError`) or completes
  normally (`Except.ok`); completing without setting a return value is
  modelled as returning `JSValue.undefined`.
* The external parsing engine (tree-sitter runtime) is out of scope of the
  repository; its node-query functions are abstracted as an `Engine`
  record of total functions, and `ts_document_parse_count` as a plain
  natural number passed to each operation.
-/

namespace NodeTreeSitter

/-- Model of the JavaScript values the binding inspects. Objects are
    association lists of named fields; functions are identified by an id. -/
inductive JSValue where
  | undefined : JSValue
  | null : JSValue
  | boolean : Bool → JSValue
  | number : Int → JSValue
  | str : String → JSValue
  | object : List (String × JSValue) → JSValue
  | function : Nat → JSValue

namespace JSValue

def isNumber : JSValue → Bool
  | .number _ => true
  | _ => false

def isObject : JSValue → Bool
  | .object _ => true
  | _ => false

def isFunction : JSValue → Bool
  | .function _ => true
  | _ => false

def isNull : JSValue → Bool
  | .null => true
  | _ => false

def isUndefined : JSValue → Bool
  | .undefined => true
  | _ => false

def isFalse : JSValue → Bool
  | .boolean false => true
  | _ => false

/-- `object->Get(key)`: first field with the given name, else `undefined`.
    Reading a property of a non-object is modelled as `undefined`. -/
def get : JSValue → String → JSValue
  | .object fields, key =>
      match fields.find? (fun p => p.1 == key) with
      | some p => p.2
      | none => .undefined
  | _, _ => .undefined

end JSValue

/-- `v8::Value::Int32Value()` on an integral number: truncation into the
    signed 32-bit range. -/
def toInt32 (n : Int) : Int := (n + 2 ^ 31) % 2 ^ 32 - 2 ^ 31

/-- Conversion of a (possibly negative) C integer to `size_t`,
    on a 64-bit platform. -/
def toSizeT (i : Int) : Nat := (i % 2 ^ 64).toNat

/-- `Int32Value()` as invoked on a `JSValue` already known to be a number
    (the binding only reads it after an `IsNumber` check). -/
def JSValue.int32Value : JSValue → Int
  | .number n => toInt32 n
  | _ => 0

/-- `TSInputEdit` as filled in by `Document::Edit` (internal units). -/
structure TSInputEdit where
  position : Int
  chars_removed : Int
  chars_inserted : Int
deriving DecidableEq, Repr

/-- Observable outcome of `Document::Edit`: the edit descriptor handed to
    `ts_document_edit`, and whether the store itself (`info.This()`) was
    set as the return value. -/
structure EditOutcome where
  editSentToEngine : TSInputEdit
  returnedThis : Bool
deriving DecidableEq, Repr

namespace Document

/-- `Document::Edit` (src/document.cc lines 141-161): each of
    `position`, `charsRemoved`, `charsInserted` is read from the
    descriptor object; a field passes into the edit only when it is a
    number (via `Int32Value()`), otherwise the zero-initialised value
    stays; the edit is handed to `ts_document_edit` unconditionally and
    `this` is returned. No error is ever thrown. -/
def Edit (arg : JSValue) : Except String EditOutcome :=
  let position := arg.get "position"
  let chars_removed := arg.get "charsRemoved"
  let chars_inserted := arg.get "charsInserted"
  let edit : TSInputEdit :=
    { position := if position.isNumber then position.int32Value else 0
      chars_removed := if chars_removed.isNumber then chars_removed.int32Value else 0
      chars_inserted := if chars_inserted.isNumber then chars_inserted.int32Value else 0 }
  .ok { editSentToEngine := edit, returnedThis := true }

end Document

/-- State of a document's input-adapter lifecycle, as manipulated by
    `Document::SetInput` and `Document::~Document`
    (src/document.cc lines 47-52 and 86-119). Allocated `InputReader`s
    are identified by the order of their allocation; `inputPayload`
    models the `payload` field of the `TSInput` currently installed in the
    engine (`none` for a zeroed input); `created` and `disposed` record
    every `new InputReader` and every `delete` event. -/
structure DocInputState where
  inputPayload : Option Nat
  nextId : Nat
  created : List Nat
  disposed : List Nat
deriving DecidableEq, Repr

namespace DocInputState

/-- A fresh document: `ts_document_new` starts with a zeroed input. -/
def init : DocInputState := ⟨none, 0, [], []⟩

end DocInputState

namespace Document

/-- `Document::SetInput` (src/document.cc lines 86-119).
    Falsy argument: the engine input is zeroed and the previous reader is
    left untouched. Non-object or missing `seek`/`read`: a type error is
    thrown and nothing changes. Otherwise a new `InputReader` is allocated
    and installed, and the previously installed reader (if any) is deleted
    afterwards. -/
def SetInput (st : DocInputState) (input : JSValue) :
    DocInputState × Except String Unit :=
  if input.isNull || input.isFalse || input.isUndefined then
    ({ st with inputPayload := none }, .ok ())
  else if !input.isObject then
    (st, .error "Input must be an object")
  else if !(input.get "seek").isFunction then
    (st, .error "Input must implement seek(n)")
  else if !(input.get "read").isFunction then
    (st, .error "Input must implement read(n)")
  else
    let old := st.inputPayload
    ({ inputPayload := some st.nextId
       nextId := st.nextId + 1
       created := st.created ++ [st.nextId]
       disposed :=
         match old with
         | some o => st.disposed ++ [o]
         | none => st.disposed },
     .ok ())

/-- `Document::~Document` (src/document.cc lines 47-52): the reader held
    by the current engine input, if any, is deleted, then the document is
    freed. -/
def Destroy (st : DocInputState) : DocInputState :=
  match st.inputPayload with
  | some o => { st with disposed := st.disposed ++ [o], inputPayload := none }
  | none => st

/-- Run a sequence of `setInput` calls (each call's thrown error, if any,
    aborts only that call). -/
def RunSetInputs (st : DocInputState) : List JSValue → DocInputState
  | [] => st
  | a :: rest => RunSetInputs (SetInput st a).1 rest

end Document

/-- The falsy test `input->IsNull() || input->IsFalse() || input->IsUndefined()`
    guarding the reset path of `Document::SetInput`. -/
def isFalsyInput (v : JSValue) : Bool :=
  v.isNull || v.isFalse || v.isUndefined

/-- `TSNode`: the engine's node descriptor. The binding only ever
    inspects its `data` pointer for null-ness, modelled as an `Option`. -/
structure TSNode where
  data : Option Nat
deriving DecidableEq, Repr

/-- `TSPoint`: row/column in the engine's units (`size_t` fields). -/
structure TSPoint where
  row : Nat
  column : Nat
deriving DecidableEq, Repr

/-- The engine (tree-sitter runtime) functions consumed by
    `src/ast_node.cc`, abstracted as total functions. Byte offsets are
    `size_t`, modelled as `Nat`. -/
structure Engine where
  ts_node_start_byte : TSNode → Nat
  ts_node_end_byte : TSNode → Nat
  ts_node_start_point : TSNode → TSPoint
  ts_node_end_point : TSNode → TSPoint
  ts_node_type : TSNode → String
  ts_node_is_named : TSNode → Bool
  ts_node_string : TSNode → String
  ts_node_parent : TSNode → TSNode
  ts_node_next_sibling : TSNode → TSNode
  ts_node_next_named_sibling : TSNode → TSNode
  ts_node_prev_sibling : TSNode → TSNode
  ts_node_prev_named_sibling : TSNode → TSNode
  ts_node_descendant_for_byte_range : TSNode → Nat → Nat → TSNode
  ts_node_named_descendant_for_byte_range : TSNode → Nat → Nat → TSNode
  ts_node_descendant_for_point_range : TSNode → TSPoint → TSPoint → TSNode
  ts_node_named_descendant_for_point_range : TSNode → TSPoint → TSPoint → TSNode

/-- The wrapped `ASTNode` handle: the engine node descriptor and the
    document's parse count captured at creation time. (The `document_`
    pointer is left implicit: every operation below receives the current
    value of `ts_document_parse_count(document_)` as a parameter.) -/
structure ASTNode where
  node_ : TSNode
  parse_count_ : Nat
deriving DecidableEq, Repr

/-- Values a NAN method or getter can produce: a plain JS value, a fresh
    node handle (`ASTNode::NewInstance`), or a child-collection view
    (`ASTNodeArray::NewInstance`, whose internals live outside the two
    source files and stay opaque here). -/
inductive RetValue where
  | js : JSValue → RetValue
  | nodeHandle : ASTNode → RetValue
  | nodeArray : TSNode → Nat → Bool → RetValue

namespace ASTNode

/-- `ASTNode::PointFromJS` (src/ast_node.cc lines 77-92). Three outcomes:
    a non-object throws a type error and yields Nothing
    (`Except.error`); an object whose `row` or `column` is not a number
    yields Nothing without throwing (`Except.ok none`); otherwise the
    point, with each coordinate put through `Int32Value()` and a cast to
    `size_t`. -/
def PointFromJS (arg : JSValue) : Except String (Option TSPoint) :=
  if !arg.isObject then
    .error "Point must be a \x7brow, column\x7d object"
  else
    let js_row := arg.get "row"
    let js_column := arg.get "column"
    if !js_row.isNumber || !js_column.isNumber then
      .ok none
    else
      .ok (some ⟨toSizeT js_row.int32Value, toSizeT js_column.int32Value⟩)

end ASTNode

/-- `ByteIndexFromJSStringIndex` (src/ast_node.cc lines 94-100): a
    non-number throws a type error; a number is converted with
    `Int32Value()`, doubled, and stored in a `size_t`. (The C `int`
    multiplication is modelled as wrapping, matching the subsequent
    `size_t` conversion.) -/
def ByteIndexFromJSStringIndex (input : JSValue) : Except String Nat :=
  if !input.isNumber then
    .error "Character index must be a number"
  else
    .ok (toSizeT (input.int32Value * 2))

namespace ASTNode

/-- `ASTNode::Unwrap` (src/ast_node.cc lines 102-108): the handle counts
    as a node only when its `TSNode` data pointer is non-null. -/
def Unwrap (h : ASTNode) : Option ASTNode :=
  if h.node_.data.isSome then some h else none

/-- `ASTNode::UnwrapValid` (src/ast_node.cc lines 110-116): `Unwrap`,
    then the captured parse count must equal the document's current
    parse count. -/
def UnwrapValid (h : ASTNode) (docParseCount : Nat) : Option ASTNode :=
  match h.Unwrap with
  | some node => if node.parse_count_ == docParseCount then some node else none
  | none => none

/-- `ASTNode::IsValid` (src/ast_node.cc lines 140-146): uses `Unwrap`
    (not `UnwrapValid`); when the handle carries a node, returns the
    boolean comparison of parse counts; otherwise no return value is set.
    Never throws. -/
def IsValid (h : ASTNode) (docParseCount : Nat) : Except String RetValue :=
  match h.Unwrap with
  | some node => .ok (.js (.boolean (node.parse_count_ == docParseCount)))
  | none => .ok (.js .undefined)

/-- `ASTNode::ToString` (src/ast_node.cc lines 131-138): on a valid
    handle, the engine's debug string; on a stale or data-less handle,
    no return value is set. -/
def ToString (eng : Engine) (h : ASTNode) (docParseCount : Nat) :
    Except String RetValue :=
  match h.UnwrapValid docParseCount with
  | some node => .ok (.js (.str (eng.ts_node_string node.node_)))
  | none => .ok (.js .undefined)

/-- `ASTNode::NamedDescendantForIndex` (src/ast_node.cc lines 148-176). -/
def NamedDescendantForIndex (eng : Engine) (h : ASTNode) (docParseCount : Nat)
    (args : List JSValue) : Except String RetValue :=
  match h.UnwrapValid docParseCount with
  | none => .ok (.js .undefined)
  | some node =>
    match args with
    | [a] => do
        let v ← ByteIndexFromJSStringIndex a
        .ok (.nodeHandle ⟨eng.ts_node_named_descendant_for_byte_range node.node_ v v,
          node.parse_count_⟩)
    | [a, b] => do
        let min ← ByteIndexFromJSStringIndex a
        let max ← ByteIndexFromJSStringIndex b
        .ok (.nodeHandle ⟨eng.ts_node_named_descendant_for_byte_range node.node_ min max,
          node.parse_count_⟩)
    | _ => .error "Must provide 1 or 2 character indices"

/-- `ASTNode::DescendantForIndex` (src/ast_node.cc lines 178-206). -/
def DescendantForIndex (eng : Engine) (h : ASTNode) (docParseCount : Nat)
    (args : List JSValue) : Except String RetValue :=
  match h.UnwrapValid docParseCount with
  | none => .ok (.js .undefined)
  | some node =>
    match args with
    | [a] => do
        let v ← ByteIndexFromJSStringIndex a
        .ok (.nodeHandle ⟨eng.ts_node_descendant_for_byte_range node.node_ v v,
          node.parse_count_⟩)
    | [a, b] => do
        let min ← ByteIndexFromJSStringIndex a
        let max ← ByteIndexFromJSStringIndex b
        .ok (.nodeHandle ⟨eng.ts_node_descendant_for_byte_range node.node_ min max,
          node.parse_count_⟩)
    | _ => .error "Must provide 1 or 2 character indices"

/-- `ASTNode::NamedDescendantForPosition` (src/ast_node.cc lines 208-236).
    In the two-argument case both `PointFromJS` calls run before either
    Nothing-check, so a pending type error from either argument fails the
    call even when the other argument already yielded Nothing. -/
def NamedDescendantForPosition (eng : Engine) (h : ASTNode) (docParseCount : Nat)
    (args : List JSValue) : Except String RetValue :=
  match h.UnwrapValid docParseCount with
  | none => .ok (.js .undefined)
  | some node =>
    match args with
    | [a] =>
      match PointFromJS a with
      | .error msg => .error msg
      | .ok none => .ok (.js .undefined)
      | .ok (some p) =>
          .ok (.nodeHandle ⟨eng.ts_node_named_descendant_for_point_range node.node_ p p,
            node.parse_count_⟩)
    | [a, b] =>
      match PointFromJS a, PointFromJS b with
      | .error msg, _ => .error msg
      | _, .error msg => .error msg
      | .ok none, _ => .ok (.js .undefined)
      | _, .ok none => .ok (.js .undefined)
      | .ok (some min), .ok (some max) =>
          .ok (.nodeHandle ⟨eng.ts_node_named_descendant_for_point_range node.node_ min max,
            node.parse_count_⟩)
    | _ => .error "Must provide 1 or 2 points"

/-- `ASTNode::DescendantForPosition` (src/ast_node.cc lines 238-266). -/
def DescendantForPosition (eng : Engine) (h : ASTNode) (docParseCount : Nat)
    (args : List JSValue) : Except String RetValue :=
  match h.UnwrapValid docParseCount with
  | none => .ok (.js .undefined)
  | some node =>
    match args with
    | [a] =>
      match PointFromJS a with
      | .error msg => .error msg
      | .ok none => .ok (.js .undefined)
      | .ok (some p) =>
          .ok (.nodeHandle ⟨eng.ts_node_descendant_for_point_range node.node_ p p,
            node.parse_count_⟩)
    | [a, b] =>
      match PointFromJS a, PointFromJS b with
      | .error msg, _ => .error msg
      | _, .error msg => .error msg
      | .ok none, _ => .ok (.js .undefined)
      | _, .ok none => .ok (.js .undefined)
      | .ok (some min), .ok (some max) =>
          .ok (.nodeHandle ⟨eng.ts_node_descendant_for_point_range node.node_ min max,
            node.parse_count_⟩)
    | _ => .error "Must provide 1 or 2 points"

/-- `ASTNode::PointToJS` (src/ast_node.cc lines 70-75). -/
def PointToJS (point : TSPoint) : JSValue :=
  .object [("row", .number point.row), ("column", .number point.column)]

/-- `ASTNode::Type` getter (src/ast_node.cc lines 268-276): stale handles
    yield `null`. -/
def TypeGetter (eng : Engine) (h : ASTNode) (docParseCount : Nat) :
    Except String RetValue :=
  match h.UnwrapValid docParseCount with
  | some node => .ok (.js (.str (eng.ts_node_type node.node_)))
  | none => .ok (.js .null)

/-- `ASTNode::IsNamed` getter (src/ast_node.cc lines 278-286). -/
def IsNamed (eng : Engine) (h : ASTNode) (docParseCount : Nat) :
    Except String RetValue :=
  match h.UnwrapValid docParseCount with
  | some node => .ok (.js (.boolean (eng.ts_node_is_named node.node_)))
  | none => .ok (.js .null)

/-- `ASTNode::StartIndex` getter (src/ast_node.cc lines 288-296):
    `ts_node_start_byte / 2`, stored in an `int32_t`. -/
def StartIndex (eng : Engine) (h : ASTNode) (docParseCount : Nat) :
    Except String RetValue :=
  match h.UnwrapValid docParseCount with
  | some node => .ok (.js (.number (toInt32 (eng.ts_node_start_byte node.node_ / 2))))
  | none => .ok (.js .null)

/-- `ASTNode::EndIndex` getter (src/ast_node.cc lines 298-306). -/
def EndIndex (eng : Engine) (h : ASTNode) (docParseCount : Nat) :
    Except String RetValue :=
  match h.UnwrapValid docParseCount with
  | some node => .ok (.js (.number (toInt32 (eng.ts_node_end_byte node.node_ / 2))))
  | none => .ok (.js .null)

/-- `ASTNode::StartPosition` getter (src/ast_node.cc lines 308-316). -/
def StartPosition (eng : Engine) (h : ASTNode) (docParseCount : Nat) :
    Except String RetValue :=
  match h.UnwrapValid docParseCount with
  | some node => .ok (.js (PointToJS (eng.ts_node_start_point node.node_)))
  | none => .ok (.js .null)

/-- `ASTNode::EndPosition` getter (src/ast_node.cc lines 318-326). -/
def EndPosition (eng : Engine) (h : ASTNode) (docParseCount : Nat) :
    Except String RetValue :=
  match h.UnwrapValid docParseCount with
  | some node => .ok (.js (PointToJS (eng.ts_node_end_point node.node_)))
  | none => .ok (.js .null)

/-- `ASTNode::Children` getter (src/ast_node.cc lines 328-334). -/
def Children (h : ASTNode) (docParseCount : Nat) : Except String RetValue :=
  match h.UnwrapValid docParseCount with
  | some node => .ok (.nodeArray node.node_ node.parse_count_ false)
  | none => .ok (.js .null)

/-- `ASTNode::NamedChildren` getter (src/ast_node.cc lines 336-342). -/
def NamedChildren (h : ASTNode) (docParseCount : Nat) : Except String RetValue :=
  match h.UnwrapValid docParseCount with
  | some node => .ok (.nodeArray node.node_ node.parse_count_ true)
  | none => .ok (.js .null)

/-- `ASTNode::Parent` getter (src/ast_node.cc lines 344-354): stale
    handle, or a parent with null data, both yield `null`. -/
def Parent (eng : Engine) (h : ASTNode) (docParseCount : Nat) :
    Except String RetValue :=
  match h.UnwrapValid docParseCount with
  | some node =>
    let parent := eng.ts_node_parent node.node_
    if parent.data.isSome then
      .ok (.nodeHandle ⟨parent, node.parse_count_⟩)
    else
      .ok (.js .null)
  | none => .ok (.js .null)

/-- `ASTNode::NextSibling` getter (src/ast_node.cc lines 356-366). -/
def NextSibling (eng : Engine) (h : ASTNode) (docParseCount : Nat) :
    Except String RetValue :=
  match h.UnwrapValid docParseCount with
  | some node =>
    let sibling := eng.ts_node_next_sibling node.node_
    if sibling.data.isSome then
      .ok (.nodeHandle ⟨sibling, node.parse_count_⟩)
    else
      .ok (.js .null)
  | none => .ok (.js .null)

/-- `ASTNode::NextNamedSibling` getter (src/ast_node.cc lines 368-378). -/
def NextNamedSibling (eng : Engine) (h : ASTNode) (docParseCount : Nat) :
    Except String RetValue :=
  match h.UnwrapValid docParseCount with
  | some node =>
    let sibling := eng.ts_node_next_named_sibling node.node_
    if sibling.data.isSome then
      .ok (.nodeHandle ⟨sibling, node.parse_count_⟩)
    else
      .ok (.js .null)
  | none => .ok (.js .null)

/-- `ASTNode::PreviousSibling` getter (src/ast_node.cc lines 380-390). -/
def PreviousSibling (eng : Engine) (h : ASTNode) (docParseCount : Nat) :
    Except String RetValue :=
  match h.UnwrapValid docParseCount with
  | some node =>
    let sibling := eng.ts_node_prev_sibling node.node_
    if sibling.data.isSome then
      .ok (.nodeHandle ⟨sibling, node.parse_count_⟩)
    else
      .ok (.js .null)
  | none => .ok (.js .null)

/-- `ASTNode::PreviousNamedSibling` getter (src/ast_node.cc lines 392-402). -/
def PreviousNamedSibling (eng : Engine) (h : ASTNode) (docParseCount : Nat) :
    Except String RetValue :=
  match h.UnwrapValid docParseCount with
  | some node =>
    let sibling := eng.ts_node_prev_named_sibling node.node_
    if sibling.data.isSome then
      .ok (.nodeHandle ⟨sibling, node.parse_count_⟩)
    else
      .ok (.js .null)
  | none => .ok (.js .null)

end ASTNode

/-- The spec's error taxonomy (§7), recovered from the exact message a
    throw site passes to `Nan::ThrowTypeError`: the two arity messages
    classify as `ArgumentArityError`, every other binding message as
    `ArgumentTypeError`. -/
inductive ErrorKind where
  | argumentTypeError
  | argumentArityError
deriving DecidableEq, Repr

def errorKindOf (msg : String) : ErrorKind :=
  if msg == "Must provide 1 or 2 character indices" || msg == "Must provide 1 or 2 points" then
    .argumentArityError
  else
    .argumentTypeError

/-- A concrete engine instance, used to evaluate the binding on explicit
    inputs. -/
def engZero : Engine where
  ts_node_start_byte := fun _ => 0
  ts_node_end_byte := fun _ => 4
  ts_node_start_point := fun _ => ⟨0, 0⟩
  ts_node_end_point := fun _ => ⟨0, 4⟩
  ts_node_type := fun _ => "program"
  ts_node_is_named := fun _ => true
  ts_node_string := fun _ => "(program)"
  ts_node_parent := fun _ => ⟨none⟩
  ts_node_next_sibling := fun _ => ⟨none⟩
  ts_node_next_named_sibling := fun _ => ⟨none⟩
  ts_node_prev_sibling := fun _ => ⟨none⟩
  ts_node_prev_named_sibling := fun _ => ⟨none⟩
  ts_node_descendant_for_byte_range := fun n _ _ => n
  ts_node_named_descendant_for_byte_range := fun n _ _ => n
  ts_node_descendant_for_point_range := fun n _ _ => n
  ts_node_named_descendant_for_point_range := fun n _ _ => n

/-- A host input source object exposing callable `seek` and `read`. -/
def validInputSource : JSValue :=
  .object [("seek", .function 0), ("read", .function 1)]

/-- An edit descriptor with numeric fields 1, 3, 5 (external units). -/
def editDescriptor135 : JSValue :=
  .object [("position", .number 1), ("charsRemoved", .number 3),
           ("charsInserted", .number 5)]

/-- Safety invariant of the input-adapter lifecycle that holds across
    arbitrary `setInput` sequences: ids are allocated fresh, nothing is
    disposed twice, the installed reader is live and never yet disposed,
    and only created readers are ever disposed. -/
def WeakInv (st : DocInputState) : Prop :=
  (∀ i ∈ st.created, i < st.nextId) ∧
  (∀ i : Nat, st.disposed.count i ≤ 1) ∧
  (∀ o : Nat, st.inputPayload = some o → o ∈ st.created ∧ st.disposed.count o = 0) ∧
  (∀ i : Nat, i ∉ st.created → st.disposed.count i = 0)

/-- Accounting invariant that additionally holds when no falsy-argument
    reset ever occurs: every reader created so far is either the one
    currently installed (not yet disposed) or has been disposed exactly
    once. -/
def GoodInv (st : DocInputState) : Prop :=
  (∀ i ∈ st.created, i < st.nextId) ∧
  (∀ o : Nat, st.inputPayload = some o → o ∈ st.created) ∧
  (∀ i ∈ st.created,
    (st.inputPayload = some i ∧ st.disposed.count i = 0) ∨
    (st.inputPayload ≠ some i ∧ st.disposed.count i = 1)) ∧
  (∀ i : Nat, i ∉ st.created → st.disposed.count i = 0)

/-! ### Helper lemmas -/

theorem toInt32_of_small (x : Int) (h0 : 0 ≤ x) (h1 : x < 2 ^ 31) :
    toInt32 x = x := by
  unfold toInt32
  rw [Int.emod_eq_of_lt (by omega) (by omega)]
  omega

theorem toSizeT_of_small (x : Int) (h0 : 0 ≤ x) (h1 : x < 2 ^ 64) :
    toSizeT x = x.toNat := by
  unfold toSizeT
  rw [Int.emod_eq_of_lt h0 h1]

theorem unwrapValid_stale (h : ASTNode) (d : Nat) (hne : h.parse_count_ ≠ d) :
    h.UnwrapValid d = none := by
  unfold ASTNode.UnwrapValid ASTNode.Unwrap
  by_cases hd : h.node_.data.isSome <;> simp [hd, hne]

theorem unwrapValid_valid (h : ASTNode) (d : Nat)
    (hdata : h.node_.data.isSome = true) (hv : h.parse_count_ = d) :
    h.UnwrapValid d = some h := by
  unfold ASTNode.UnwrapValid ASTNode.Unwrap
  simp [hdata, hv]

theorem byteIndex_not_number (a : JSValue) (ha : a.isNumber = false) :
    ByteIndexFromJSStringIndex a = .error "Character index must be a number" := by
  simp [ByteIndexFromJSStringIndex, ha]

theorem byteIndex_small_nat (i : Nat) (hi : i < 2 ^ 31) :
    ByteIndexFromJSStringIndex (.number (i : Int)) = .ok (2 * i) := by
  have h32 : toInt32 (i : Int) = (i : Int) :=
    toInt32_of_small _ (by omega) (by exact_mod_cast hi)
  simp only [ByteIndexFromJSStringIndex, JSValue.isNumber, JSValue.int32Value,
    Bool.not_true, Bool.false_eq_true, if_false, h32, toSizeT, Except.ok.injEq]
  omega

theorem pointFromJS_not_object (a : JSValue) (ha : a.isObject = false) :
    ASTNode.PointFromJS a = .error "Point must be a \x7brow, column\x7d object" := by
  simp [ASTNode.PointFromJS, ha]

theorem pointFromJS_bad_fields (a : JSValue) (ha : a.isObject = true)
    (hrc : (a.get "row").isNumber = false ∨ (a.get "column").isNumber = false) :
    ASTNode.PointFromJS a = .ok none := by
  unfold ASTNode.PointFromJS
  rcases hrc with hr | hc
  · simp [ha, hr]
  · simp [ha, hc]

theorem pointFromJS_object_isOk (b : JSValue) (hb : b.isObject = true) :
    ∃ r, ASTNode.PointFromJS b = .ok r := by
  unfold ASTNode.PointFromJS
  rw [hb]
  simp only [Bool.not_true, Bool.false_eq_true, if_false]
  split
  · exact ⟨none, rfl⟩
  · exact ⟨_, rfl⟩

theorem pointFromJS_error_msg (v : JSValue) (m : String)
    (hv : ASTNode.PointFromJS v = .error m) :
    m = "Point must be a \x7brow, column\x7d object" := by
  by_cases hobj : v.isObject = true
  · obtain ⟨r, hr⟩ := pointFromJS_object_isOk v hobj
    rw [hr] at hv
    exact Except.noConfusion hv
  · have hne := pointFromJS_not_object v (by simpa using hobj)
    rw [hne] at hv
    injection hv with hm
    exact hm.symm


/-! ### Claim theorems -/

/-- C1 (counterexample): `edit(descriptor)` does not put the descriptor's
    fields through the Position Codec. For the descriptor
    `{position: 1, charsRemoved: 3, charsInserted: 5}` the engine receives
    the edit `{1, 3, 5}` unchanged, which differs from the claimed
    `{2, 6, 10}` (the external values multiplied by W = 2). -/
theorem c1_edit_no_codec_counterexample :
    Document.Edit editDescriptor135 =
      .ok ⟨⟨1, 3, 5⟩, true⟩ ∧
    (⟨1, 3, 5⟩ : TSInputEdit) ≠ ⟨2 * 1, 2 * 3, 2 * 5⟩ := by
  exact ⟨rfl, by decide⟩

/-- C1 (amended): for every call to `edit(descriptor)` with numeric
    `position`, `charsRemoved` and `charsInserted`, the three fields are
    handed to the engine after plain `Int32Value()` truncation, with no
    unit-width translation applied. -/
theorem c1_edit_passes_fields_untranslated (p r ins : Int) :
    Document.Edit (.object [("position", .number p), ("charsRemoved", .number r),
        ("charsInserted", .number ins)]) =
      .ok ⟨⟨toInt32 p, toInt32 r, toInt32 ins⟩, true⟩ := by
  rfl

/-- C4: on every handle that carries an engine node, `isValid()` returns
    exactly the boolean comparison of the captured parse count with the
    document's current parse count; and on every handle whatsoever the
    call completes without throwing. -/
theorem c4_is_valid_reports_version (h : ASTNode) (d : Nat)
    (hdata : h.node_.data.isSome = true) :
    h.IsValid d = .ok (.js (.boolean (h.parse_count_ == d))) ∧
    (∀ h' : ASTNode, ∃ v, ASTNode.IsValid h' d = .ok v) := by
  constructor
  · unfold ASTNode.IsValid ASTNode.Unwrap
    simp [hdata]
  · intro h'
    unfold ASTNode.IsValid ASTNode.Unwrap
    by_cases hd : h'.node_.data.isSome <;> simp [hd]

/-- Witness for C4 at a concrete fresh handle. -/
theorem c4_is_valid_witness :
    ASTNode.IsValid ⟨⟨some 0⟩, 0⟩ 0 = .ok (.js (.boolean (0 == 0))) :=
  (c4_is_valid_reports_version ⟨⟨some 0⟩, 0⟩ 0 rfl).1

/-- C5: on a handle whose captured parse count differs from the
    document's, every enumerable property accessor (startIndex, endIndex,
    startPosition, endPosition, type, isNamed) and every navigation
    accessor yields an absent value (`null`) instead of raising an error,
    and `toString` likewise degrades to an absent result (no return value,
    i.e. `undefined`). -/
theorem c5_stale_accessors_absent (eng : Engine) (h : ASTNode) (d : Nat)
    (hstale : h.parse_count_ ≠ d) :
    h.StartIndex eng d = .ok (.js .null) ∧
    h.EndIndex eng d = .ok (.js .null) ∧
    h.StartPosition eng d = .ok (.js .null) ∧
    h.EndPosition eng d = .ok (.js .null) ∧
    h.TypeGetter eng d = .ok (.js .null) ∧
    h.IsNamed eng d = .ok (.js .null) ∧
    h.Parent eng d = .ok (.js .null) ∧
    h.Children d = .ok (.js .null) ∧
    h.NamedChildren d = .ok (.js .null) ∧
    h.NextSibling eng d = .ok (.js .null) ∧
    h.NextNamedSibling eng d = .ok (.js .null) ∧
    h.PreviousSibling eng d = .ok (.js .null) ∧
    h.PreviousNamedSibling eng d = .ok (.js .null) ∧
    h.ToString eng d = .ok (.js .undefined) := by
  have hu := unwrapValid_stale h d hstale
  refine ⟨?_, ?_, ?_, ?_, ?_, ?_, ?_, ?_, ?_, ?_, ?_, ?_, ?_, ?_⟩ <;>
    simp [ASTNode.StartIndex, ASTNode.EndIndex, ASTNode.StartPosition,
      ASTNode.EndPosition, ASTNode.TypeGetter, ASTNode.IsNamed, ASTNode.Parent,
      ASTNode.Children, ASTNode.NamedChildren, ASTNode.NextSibling,
      ASTNode.NextNamedSibling, ASTNode.PreviousSibling,
      ASTNode.PreviousNamedSibling, ASTNode.ToString, hu]

/-- Witness for C5 at a concrete stale handle. -/
theorem c5_stale_accessors_witness :
    ASTNode.StartIndex engZero ⟨⟨some 0⟩, 1⟩ 0 = .ok (.js .null) :=
  (c5_stale_accessors_absent engZero ⟨⟨some 0⟩, 1⟩ 0 (by decide)).1

/-- C8: `descendantForIndex(i)` returns the same result as
    `descendantForIndex(i, i)` for every numeric index `i` (and likewise
    for `namedDescendantForIndex`), on every handle and document state. -/
theorem c8_single_index_equals_pair (eng : Engine) (h : ASTNode) (d : Nat)
    (i : Int) :
    h.DescendantForIndex eng d [.number i] =
      h.DescendantForIndex eng d [.number i, .number i] ∧
    h.NamedDescendantForIndex eng d [.number i] =
      h.NamedDescendantForIndex eng d [.number i, .number i] := by
  cases hu : h.UnwrapValid d
  · simp [ASTNode.DescendantForIndex, ASTNode.NamedDescendantForIndex, hu]
  · simp only [ASTNode.DescendantForIndex, ASTNode.NamedDescendantForIndex, hu]
    exact ⟨rfl, rfl⟩

/-- C9: on a stale handle (and likewise on a handle without engine-node
    data), all four descendant queries return an absent result without
    examining their arguments: no arity or type error is raised no matter
    what the argument list is, because the validity gate runs first. -/
theorem c9_stale_gate_before_argument_validation (eng : Engine) (h : ASTNode)
    (d : Nat) (hstale : h.parse_count_ ≠ d) (args : List JSValue) :
    h.DescendantForIndex eng d args = .ok (.js .undefined) ∧
    h.NamedDescendantForIndex eng d args = .ok (.js .undefined) ∧
    h.DescendantForPosition eng d args = .ok (.js .undefined) ∧
    h.NamedDescendantForPosition eng d args = .ok (.js .undefined) := by
  have hu := unwrapValid_stale h d hstale
  refine ⟨?_, ?_, ?_, ?_⟩ <;>
    simp [ASTNode.DescendantForIndex, ASTNode.NamedDescendantForIndex,
      ASTNode.DescendantForPosition, ASTNode.NamedDescendantForPosition, hu]

/-- Witness for C9: a stale handle queried with a wrong-arity argument
    list still yields `undefined` rather than an arity error. -/
theorem c9_stale_gate_witness :
    ASTNode.DescendantForIndex engZero ⟨⟨some 0⟩, 1⟩ 0 [] = .ok (.js .undefined) :=
  (c9_stale_gate_before_argument_validation engZero ⟨⟨some 0⟩, 1⟩ 0 (by decide) []).1

/-- C10: `edit(descriptor)` never throws; every descriptor field among
    `position`, `charsRemoved`, `charsInserted` that is absent or
    non-numeric contributes 0 to the edit handed to the engine, and the
    store itself is set as the return value. -/
theorem c10_edit_total_defaults_zero (arg : JSValue) :
    (∃ o, Document.Edit arg = .ok o) ∧
    (∀ o, Document.Edit arg = .ok o →
      o.returnedThis = true ∧
      ((arg.get "position").isNumber = false → o.editSentToEngine.position = 0) ∧
      ((arg.get "charsRemoved").isNumber = false →
        o.editSentToEngine.chars_removed = 0) ∧
      ((arg.get "charsInserted").isNumber = false →
        o.editSentToEngine.chars_inserted = 0)) := by
  refine ⟨⟨_, rfl⟩, ?_⟩
  intro o ho
  unfold Document.Edit at ho
  injection ho with ho
  subst ho
  refine ⟨rfl, ?_, ?_, ?_⟩ <;> intro hnum <;> simp [hnum]

/-- Witness for C10: a descriptor whose `position` is the string `"x"`
    contributes position 0. -/
theorem c10_edit_witness :
    (⟨⟨0, 0, 0⟩, true⟩ : EditOutcome).editSentToEngine.position = 0 :=
  ((c10_edit_total_defaults_zero (.object [("position", .str "x")])).2
    ⟨⟨0, 0, 0⟩, true⟩ rfl).2.1 rfl

/-- C7: on a valid handle, `descendantForIndex` and
    `namedDescendantForIndex` fail with the arity error
    ("Must provide 1 or 2 character indices", classified
    `ArgumentArityError`) for zero or three-or-more arguments, and fail
    with the type error ("Character index must be a number", classified
    `ArgumentTypeError`) for a non-numeric argument in either position. -/
theorem c7_descendant_for_index_errors (eng : Engine) (h : ASTNode) (d : Nat)
    (hdata : h.node_.data.isSome = true) (hvalid : h.parse_count_ = d) :
    (∀ args : List JSValue, args.length = 0 ∨ 3 ≤ args.length →
      h.DescendantForIndex eng d args =
        .error "Must provide 1 or 2 character indices" ∧
      h.NamedDescendantForIndex eng d args =
        .error "Must provide 1 or 2 character indices") ∧
    (∀ a, a.isNumber = false →
      h.DescendantForIndex eng d [a] = .error "Character index must be a number" ∧
      h.NamedDescendantForIndex eng d [a] =
        .error "Character index must be a number") ∧
    (∀ a b, a.isNumber = false ∨ b.isNumber = false →
      h.DescendantForIndex eng d [a, b] =
        .error "Character index must be a number" ∧
      h.NamedDescendantForIndex eng d [a, b] =
        .error "Character index must be a number") ∧
    errorKindOf "Must provide 1 or 2 character indices" = .argumentArityError ∧
    errorKindOf "Character index must be a number" = .argumentTypeError := by
  have hu := unwrapValid_valid h d hdata hvalid
  refine ⟨?_, ?_, ?_, rfl, rfl⟩
  · intro args hlen
    rcases args with _ | ⟨a, _ | ⟨b, _ | ⟨c, rest⟩⟩⟩
    · simp only [ASTNode.DescendantForIndex, ASTNode.NamedDescendantForIndex, hu]
      refine ⟨?_, ?_⟩ <;> trivial
    · simp at hlen
    · simp at hlen
    · simp only [ASTNode.DescendantForIndex, ASTNode.NamedDescendantForIndex, hu]
      refine ⟨?_, ?_⟩ <;> trivial
  · intro a ha
    have hberr := byteIndex_not_number a ha
    simp only [ASTNode.DescendantForIndex, ASTNode.NamedDescendantForIndex, hu, hberr]
    refine ⟨?_, ?_⟩ <;> trivial
  · intro a b hab
    by_cases ha : a.isNumber = false
    · have hberr := byteIndex_not_number a ha
      simp only [ASTNode.DescendantForIndex, ASTNode.NamedDescendantForIndex, hu, hberr]
      refine ⟨?_, ?_⟩ <;> trivial
    · have hb : b.isNumber = false := by
        rcases hab with h' | h'
        · exact absurd h' ha
        · exact h'
      rcases hna : a with _ | _ | _ | n | _ | _ | _ <;> try simp [JSValue.isNumber, hna] at ha
      have hberr := byteIndex_not_number b hb
      simp only [ASTNode.DescendantForIndex, ASTNode.NamedDescendantForIndex, hu, hberr]
      refine ⟨?_, ?_⟩ <;> trivial

/-- Witness for C7: a zero-argument call on a valid handle yields the
    arity error. -/
theorem c7_descendant_for_index_errors_witness :
    ASTNode.DescendantForIndex engZero ⟨⟨some 0⟩, 0⟩ 0 [] =
      .error "Must provide 1 or 2 character indices" :=
  ((c7_descendant_for_index_errors engZero ⟨⟨some 0⟩, 0⟩ 0 rfl rfl).1
    [] (Or.inl rfl)).1

/-- C6: on a valid handle, `startIndex`/`endIndex` return the engine's
    byte offsets divided by the unit width W = 2 (whenever the byte
    offsets fit 32 bits, so that the `int32_t` store is lossless);
    `descendantForIndex`/`namedDescendantForIndex` multiply each external
    index below 2^31 by W = 2 before querying the engine; in particular
    `descendantForIndex(0, 1)` queries the internal byte range from 0
    to 2. -/
theorem c6_position_codec (eng : Engine) (h : ASTNode) (d : Nat)
    (hdata : h.node_.data.isSome = true) (hvalid : h.parse_count_ = d)
    (hstart : eng.ts_node_start_byte h.node_ < 2 ^ 32)
    (hend : eng.ts_node_end_byte h.node_ < 2 ^ 32) :
    h.StartIndex eng d =
      .ok (.js (.number (eng.ts_node_start_byte h.node_ / 2))) ∧
    h.EndIndex eng d =
      .ok (.js (.number (eng.ts_node_end_byte h.node_ / 2))) ∧
    (∀ i j : Nat, i < 2 ^ 31 → j < 2 ^ 31 →
      h.DescendantForIndex eng d [.number (i : Int), .number (j : Int)] =
        .ok (.nodeHandle ⟨eng.ts_node_descendant_for_byte_range h.node_
          (2 * i) (2 * j), h.parse_count_⟩) ∧
      h.NamedDescendantForIndex eng d [.number (i : Int), .number (j : Int)] =
        .ok (.nodeHandle ⟨eng.ts_node_named_descendant_for_byte_range h.node_
          (2 * i) (2 * j), h.parse_count_⟩)) ∧
    h.DescendantForIndex eng d [.number 0, .number 1] =
      .ok (.nodeHandle ⟨eng.ts_node_descendant_for_byte_range h.node_ 0 2,
        h.parse_count_⟩) := by
  have hu := unwrapValid_valid h d hdata hvalid
  refine ⟨?_, ?_, ?_, ?_⟩
  · simp only [ASTNode.StartIndex, hu]
    rw [toInt32_of_small _ (by omega) (by omega)]
  · simp only [ASTNode.EndIndex, hu]
    rw [toInt32_of_small _ (by omega) (by omega)]
  · intro i j hi hj
    constructor <;>
      simp only [ASTNode.DescendantForIndex, ASTNode.NamedDescendantForIndex, hu,
        byteIndex_small_nat i hi, byteIndex_small_nat j hj] <;> rfl
  · simp only [ASTNode.DescendantForIndex, hu]
    rfl

/-- Witness for C6 at a concrete engine and fresh handle. -/
theorem c6_position_codec_witness :
    ASTNode.StartIndex engZero ⟨⟨some 0⟩, 0⟩ 0 =
      .ok (.js (.number (engZero.ts_node_start_byte ⟨some 0⟩ / 2))) :=
  (c6_position_codec engZero ⟨⟨some 0⟩, 0⟩ 0 rfl rfl (by decide) (by decide)).1

/-- C3 (counterexample): on a valid handle, `descendantForPosition`
    invoked with a point argument that is an object but does not expose
    numeric `row`/`column` fields returns silently (absent result) rather
    than failing with a type error. -/
theorem c3_point_type_error_counterexample :
    ASTNode.DescendantForPosition engZero ⟨⟨some 0⟩, 0⟩ 0 [.object []] =
      .ok (.js .undefined) ∧
    (Except.ok (RetValue.js .undefined) ≠
      (Except.error "Point must be a \x7brow, column\x7d object" :
        Except String RetValue)) := by
  refine ⟨rfl, ?_⟩
  intro hcontra
  exact Except.noConfusion hcontra

/-- C3 (amended): on a valid handle, a point argument that is not an
    object fails with the type error
    ("Point must be a \x7brow, column\x7d object", classified
    `ArgumentTypeError`), in either argument position; a point argument
    that is an object lacking numeric `row`/`column` instead makes the
    call return silently with an absent result (no error), provided any
    companion point argument is itself an object. -/
theorem c3_point_argument_validation (eng : Engine) (h : ASTNode) (d : Nat)
    (hdata : h.node_.data.isSome = true) (hvalid : h.parse_count_ = d)
    (a b : JSValue) :
    (a.isObject = false →
      h.DescendantForPosition eng d [a] =
        .error "Point must be a \x7brow, column\x7d object" ∧
      h.NamedDescendantForPosition eng d [a] =
        .error "Point must be a \x7brow, column\x7d object" ∧
      h.DescendantForPosition eng d [a, b] =
        .error "Point must be a \x7brow, column\x7d object" ∧
      h.NamedDescendantForPosition eng d [a, b] =
        .error "Point must be a \x7brow, column\x7d object" ∧
      h.DescendantForPosition eng d [b, a] =
        .error "Point must be a \x7brow, column\x7d object" ∧
      h.NamedDescendantForPosition eng d [b, a] =
        .error "Point must be a \x7brow, column\x7d object") ∧
    (a.isObject = true →
      ((a.get "row").isNumber = false ∨ (a.get "column").isNumber = false) →
      h.DescendantForPosition eng d [a] = .ok (.js .undefined) ∧
      h.NamedDescendantForPosition eng d [a] = .ok (.js .undefined) ∧
      (b.isObject = true →
        h.DescendantForPosition eng d [a, b] = .ok (.js .undefined) ∧
        h.NamedDescendantForPosition eng d [a, b] = .ok (.js .undefined) ∧
        h.DescendantForPosition eng d [b, a] = .ok (.js .undefined) ∧
        h.NamedDescendantForPosition eng d [b, a] = .ok (.js .undefined))) ∧
    errorKindOf "Point must be a \x7brow, column\x7d object" =
      .argumentTypeError := by
  have hu := unwrapValid_valid h d hdata hvalid
  refine ⟨?_, ?_, rfl⟩
  · intro ha
    have haerr := pointFromJS_not_object a ha
    refine ⟨?_, ?_, ?_, ?_, ?_, ?_⟩
    · simp only [ASTNode.DescendantForPosition, hu, haerr]
    · simp only [ASTNode.NamedDescendantForPosition, hu, haerr]
    · simp only [ASTNode.DescendantForPosition, hu, haerr]
    · simp only [ASTNode.NamedDescendantForPosition, hu, haerr]
    · simp only [ASTNode.DescendantForPosition, hu, haerr]
      rcases hpb : ASTNode.PointFromJS b with m | r
      · rw [pointFromJS_error_msg b m hpb]
      · cases r <;> trivial
    · simp only [ASTNode.NamedDescendantForPosition, hu, haerr]
      rcases hpb : ASTNode.PointFromJS b with m | r
      · rw [pointFromJS_error_msg b m hpb]
      · cases r <;> trivial
  · intro ha hrc
    have hanone := pointFromJS_bad_fields a ha hrc
    refine ⟨?_, ?_, ?_⟩
    · simp only [ASTNode.DescendantForPosition, hu, hanone]
    · simp only [ASTNode.NamedDescendantForPosition, hu, hanone]
    · intro hb
      obtain ⟨r, hr⟩ := pointFromJS_object_isOk b hb
      refine ⟨?_, ?_, ?_, ?_⟩ <;>
        simp only [ASTNode.DescendantForPosition, ASTNode.NamedDescendantForPosition,
          hu, hanone, hr] <;>
        cases r <;> trivial

/-- Witness for C3's amended statement: a numeric (non-object) point
    argument yields the type error. -/
theorem c3_point_argument_validation_witness :
    ASTNode.DescendantForPosition engZero ⟨⟨some 0⟩, 0⟩ 0 [.number 7] =
      .error "Point must be a \x7brow, column\x7d object" :=
  ((c3_point_argument_validation engZero ⟨⟨some 0⟩, 0⟩ 0 rfl rfl
    (.number 7) .null).1 rfl).1

theorem count_append_single (l : List Nat) (o i : Nat) :
    (l ++ [o]).count i = l.count i + if i = o then 1 else 0 := by
  by_cases hio : i = o
  · subst hio
    simp [List.count_append]
  · simp [List.count_append, List.count_cons, hio]

/-- The three possible state outcomes of one `setInput` call: unchanged
    (argument rejected), reset to an empty input (falsy argument), or a
    fresh reader installed with the old one deleted. -/
theorem setInput_cases (st : DocInputState) (a : JSValue) :
    (Document.SetInput st a).1 = st ∨
    (Document.SetInput st a).1 = { st with inputPayload := none } ∨
    (Document.SetInput st a).1 =
      { inputPayload := some st.nextId, nextId := st.nextId + 1,
        created := st.created ++ [st.nextId],
        disposed :=
          match st.inputPayload with
          | some o => st.disposed ++ [o]
          | none => st.disposed } := by
  unfold Document.SetInput
  split
  · right; left; rfl
  · split
    · left; rfl
    · split
      · left; rfl
      · split
        · left; rfl
        · right; right; rfl

/-- With a non-falsy argument, one `setInput` call either rejects the
    argument (state unchanged) or performs the reader replacement. -/
theorem setInput_not_falsy (st : DocInputState) (a : JSValue)
    (hfal : isFalsyInput a = false) :
    (Document.SetInput st a).1 = st ∨
    (Document.SetInput st a).1 =
      { inputPayload := some st.nextId, nextId := st.nextId + 1,
        created := st.created ++ [st.nextId],
        disposed :=
          match st.inputPayload with
          | some o => st.disposed ++ [o]
          | none => st.disposed } := by
  unfold isFalsyInput at hfal
  unfold Document.SetInput
  rw [if_neg (by simp [hfal])]
  split
  · left; rfl
  · split
    · left; rfl
    · split
      · left; rfl
      · right; rfl

theorem weakInv_init : WeakInv DocInputState.init := by
  unfold WeakInv DocInputState.init
  refine ⟨?_, ?_, ?_, ?_⟩ <;> simp

theorem goodInv_init : GoodInv DocInputState.init := by
  unfold GoodInv DocInputState.init
  refine ⟨?_, ?_, ?_, ?_⟩ <;> simp

theorem weakInv_reset (st : DocInputState) (hw : WeakInv st) :
    WeakInv { st with inputPayload := none } :=
  ⟨hw.1, hw.2.1, fun o ho => by simp at ho, hw.2.2.2⟩

theorem weakInv_install (st : DocInputState) (hw : WeakInv st) :
    WeakInv
      { inputPayload := some st.nextId, nextId := st.nextId + 1,
        created := st.created ++ [st.nextId],
        disposed :=
          match st.inputPayload with
          | some o => st.disposed ++ [o]
          | none => st.disposed } := by
  obtain ⟨h1, h2, h3, h4⟩ := hw
  have hfreshNotCreated : st.nextId ∉ st.created :=
    fun hc => absurd (h1 _ hc) (lt_irrefl _)
  cases hp : st.inputPayload with
  | none =>
    refine ⟨?_, ?_, ?_, ?_⟩
    · intro i hi
      rcases List.mem_append.mp hi with hic | hin
      · exact Nat.lt_succ_of_lt (h1 i hic)
      · rw [List.mem_singleton.mp hin]; exact Nat.lt_succ_self _
    · exact h2
    · intro o ho
      injection ho with ho
      refine ⟨List.mem_append_right _ (List.mem_singleton.mpr ho.symm), ?_⟩
      rw [← ho]
      exact h4 _ hfreshNotCreated
    · intro i hi
      exact h4 i (fun hc => hi (List.mem_append_left _ hc))
  | some o =>
    have hoCreated : o ∈ st.created := (h3 o hp).1
    have hoCountZero : st.disposed.count o = 0 := (h3 o hp).2
    have honeq : o ≠ st.nextId := fun he => absurd (he ▸ h1 o hoCreated) (lt_irrefl _)
    refine ⟨?_, ?_, ?_, ?_⟩
    · intro i hi
      rcases List.mem_append.mp hi with hic | hin
      · exact Nat.lt_succ_of_lt (h1 i hic)
      · rw [List.mem_singleton.mp hin]; exact Nat.lt_succ_self _
    · intro i
      show (st.disposed ++ [o]).count i ≤ 1
      rw [count_append_single]
      by_cases hio : i = o
      · subst hio
        rw [hoCountZero, if_pos rfl]
      · rw [if_neg hio]
        have := h2 i
        omega
    · intro p hp2
      injection hp2 with hp2
      refine ⟨List.mem_append_right _ (List.mem_singleton.mpr hp2.symm), ?_⟩
      show (st.disposed ++ [o]).count p = 0
      rw [count_append_single]
      rw [← hp2]
      rw [h4 _ hfreshNotCreated, if_neg (fun he => honeq he.symm)]
    · intro i hi
      have hic : i ∉ st.created := fun hc => hi (List.mem_append_left _ hc)
      show (st.disposed ++ [o]).count i = 0
      rw [count_append_single, h4 i hic,
        if_neg (fun (he : i = o) => hic (he.symm ▸ hoCreated))]

theorem goodInv_install (st : DocInputState) (hg : GoodInv st) :
    GoodInv
      { inputPayload := some st.nextId, nextId := st.nextId + 1,
        created := st.created ++ [st.nextId],
        disposed :=
          match st.inputPayload with
          | some o => st.disposed ++ [o]
          | none => st.disposed } := by
  obtain ⟨g1, g2, g3, g4⟩ := hg
  have hfreshNotCreated : st.nextId ∉ st.created :=
    fun hc => absurd (g1 _ hc) (lt_irrefl _)
  cases hp : st.inputPayload with
  | none =>
    refine ⟨?_, ?_, ?_, ?_⟩
    · intro i hi
      rcases List.mem_append.mp hi with hic | hin
      · exact Nat.lt_succ_of_lt (g1 i hic)
      · rw [List.mem_singleton.mp hin]; exact Nat.lt_succ_self _
    · intro p hp2
      injection hp2 with hp2
      exact List.mem_append_right _ (List.mem_singleton.mpr hp2.symm)
    · intro i hi
      rcases List.mem_append.mp hi with hic | hin
      · rcases g3 i hic with ⟨hpay, _⟩ | ⟨_, hcount⟩
        · rw [hp] at hpay
          exact Option.noConfusion hpay
        · right
          refine ⟨?_, hcount⟩
          intro he
          injection he with he
          exact absurd (he ▸ g1 i hic) (lt_irrefl _)
      · left
        rw [List.mem_singleton.mp hin]
        exact ⟨rfl, g4 _ hfreshNotCreated⟩
    · intro i hi
      exact g4 i (fun hc => hi (List.mem_append_left _ hc))
  | some o =>
    have hoCreated : o ∈ st.created := g2 o hp
    have honeq : o ≠ st.nextId := fun he => absurd (he ▸ g1 o hoCreated) (lt_irrefl _)
    have hoCountZero : st.disposed.count o = 0 := by
      rcases g3 o hoCreated with ⟨_, hcount⟩ | ⟨hpay, _⟩
      · exact hcount
      · exact absurd hp hpay
    refine ⟨?_, ?_, ?_, ?_⟩
    · intro i hi
      rcases List.mem_append.mp hi with hic | hin
      · exact Nat.lt_succ_of_lt (g1 i hic)
      · rw [List.mem_singleton.mp hin]; exact Nat.lt_succ_self _
    · intro p hp2
      injection hp2 with hp2
      exact List.mem_append_right _ (List.mem_singleton.mpr hp2.symm)
    · intro i hi
      rcases List.mem_append.mp hi with hic | hin
      · right
        have hlt : i < st.nextId := g1 i hic
        refine ⟨fun he => by injection he with he; omega, ?_⟩
        show (st.disposed ++ [o]).count i = 1
        rw [count_append_single]
        rcases g3 i hic with ⟨hpay, hcount⟩ | ⟨hpay, hcount⟩
        · rw [hp] at hpay
          injection hpay with hoi
          rw [hcount, if_pos hoi.symm]
        · have hio : i ≠ o := fun he => hpay (by rw [hp, he])
          rw [hcount, if_neg hio]
      · left
        rw [List.mem_singleton.mp hin]
        refine ⟨rfl, ?_⟩
        show (st.disposed ++ [o]).count st.nextId = 0
        rw [count_append_single, g4 _ hfreshNotCreated,
          if_neg (fun he => honeq he.symm)]
    · intro i hi
      have hic : i ∉ st.created := fun hc => hi (List.mem_append_left _ hc)
      show (st.disposed ++ [o]).count i = 0
      rw [count_append_single, g4 i hic,
        if_neg (fun (he : i = o) => hic (he.symm ▸ hoCreated))]

theorem weakInv_setInput (st : DocInputState) (a : JSValue) (hw : WeakInv st) :
    WeakInv (Document.SetInput st a).1 := by
  rcases setInput_cases st a with h | h | h <;> rw [h]
  · exact hw
  · exact weakInv_reset st hw
  · exact weakInv_install st hw

theorem goodInv_setInput (st : DocInputState) (a : JSValue)
    (hfal : isFalsyInput a = false) (hg : GoodInv st) :
    GoodInv (Document.SetInput st a).1 := by
  rcases setInput_not_falsy st a hfal with h | h <;> rw [h]
  · exact hg
  · exact goodInv_install st hg

theorem weakInv_run (st : DocInputState) (args : List JSValue) (hw : WeakInv st) :
    WeakInv (Document.RunSetInputs st args) := by
  induction args generalizing st with
  | nil => exact hw
  | cons a rest ih => exact ih _ (weakInv_setInput st a hw)

theorem goodInv_run (st : DocInputState) (args : List JSValue)
    (hargs : ∀ a ∈ args, isFalsyInput a = false) (hg : GoodInv st) :
    GoodInv (Document.RunSetInputs st args) := by
  induction args generalizing st with
  | nil => exact hg
  | cons a rest ih =>
    exact ih (Document.SetInput st a).1
      (fun x hx => hargs x (List.mem_cons_of_mem a hx))
      (goodInv_setInput st a (hargs a (List.mem_cons_self a rest)) hg)

theorem destroy_count_le_one (st : DocInputState) (hw : WeakInv st) (i : Nat) :
    (Document.Destroy st).disposed.count i ≤ 1 := by
  obtain ⟨h1, h2, h3, h4⟩ := hw
  unfold Document.Destroy
  cases hp : st.inputPayload with
  | none => exact h2 i
  | some o =>
    show (st.disposed ++ [o]).count i ≤ 1
    rw [count_append_single]
    by_cases hio : i = o
    · subst hio
      rw [(h3 i hp).2, if_pos rfl]
    · rw [if_neg hio]
      have := h2 i
      omega

theorem destroy_count_eq_one (st : DocInputState) (hg : GoodInv st) :
    ∀ i ∈ (Document.Destroy st).created,
      (Document.Destroy st).disposed.count i = 1 := by
  obtain ⟨g1, g2, g3, g4⟩ := hg
  intro i hi
  unfold Document.Destroy at hi ⊢
  cases hp : st.inputPayload with
  | none =>
    rw [hp] at hi
    rcases g3 i hi with ⟨hpay, _⟩ | ⟨_, hcount⟩
    · rw [hp] at hpay
      exact Option.noConfusion hpay
    · exact hcount
  | some o =>
    rw [hp] at hi
    show (st.disposed ++ [o]).count i = 1
    rw [count_append_single]
    rcases g3 i hi with ⟨hpay, hcount⟩ | ⟨hpay, hcount⟩
    · rw [hp] at hpay
      injection hpay with hoi
      rw [hcount, if_pos hoi.symm]
    · have hio : i ≠ o := fun he => hpay (by rw [hp, he])
      rw [hcount, if_neg hio]

/-- C2 (counterexample): installing an adapter and then calling
    `setInput(null)` leaks the adapter. After the sequence
    `setInput(validSource); setInput(null)` and destruction of the store,
    reader 0 was created but never disposed: the "disposed exactly once,
    never leaked" claim fails on the reset path. -/
theorem c2_set_input_none_leak_counterexample :
    0 ∈ (Document.Destroy (Document.RunSetInputs DocInputState.init
      [validInputSource, JSValue.null])).created ∧
    (Document.Destroy (Document.RunSetInputs DocInputState.init
      [validInputSource, JSValue.null])).disposed.count 0 = 0 := by
  decide

/-- C2 (amended): across any sequence of `setInput` calls followed by
    store destruction, no adapter is ever disposed twice; and when the
    sequence contains no falsy (reset) argument, every adapter ever
    created is disposed exactly once — replaced adapters at their
    replacement, the last one at destruction. The `setInput(none)` reset
    path, however, abandons the previously installed adapter without
    disposing it. -/
theorem c2_adapter_disposal_amended (args : List JSValue) :
    (∀ i : Nat,
      (Document.Destroy (Document.RunSetInputs DocInputState.init args)).disposed.count i ≤ 1) ∧
    ((∀ a ∈ args, isFalsyInput a = false) →
      ∀ i ∈ (Document.Destroy (Document.RunSetInputs DocInputState.init args)).created,
        (Document.Destroy (Document.RunSetInputs DocInputState.init args)).disposed.count i = 1) := by
  constructor
  · intro i
    exact destroy_count_le_one _ (weakInv_run _ args weakInv_init) i
  · intro hnf
    exact destroy_count_eq_one _ (goodInv_run _ args hnf goodInv_init)

/-- Witness for C2's amended statement: a single successful `setInput`
    followed by destruction disposes reader 0 exactly once. -/
theorem c2_adapter_disposal_witness :
    (Document.Destroy (Document.RunSetInputs DocInputState.init
      [validInputSource])).disposed.count 0 = 1 :=
  (c2_adapter_disposal_amended [validInputSource]).2 (by decide) 0 (by decide)

end NodeTreeSitter
